import Mathlib

/-!
Verification development for the transaction query-resolution engine
(business-logic/archive/tx-query.js) of the stellar-expert explorer API.

The JavaScript source is shallowly embedded below: BigInt values become
Lean Int, the mutable query state becomes explicit state passing, thrown
errors become Except, and external collaborators (database resolvers,
the search index, the stellar SDK validators) become fields of an
environment record, since the source consumes them as opaque async
lookups.
-/

namespace TxQ

/-- Errors observable by a caller of the query engine: validation errors
carrying the offending field name, the not-found error of the single
record lookup, and JavaScript runtime type errors. -/
inductive JsError where
  | validation (field : String)
  | notFound
  | typeError
deriving DecidableEq, Repr

/-- Models a raw HTTP query parameter as the route handler hands it to
TxQuery: absent, a single string, or an array of strings. -/
inductive JsParam where
  | absent
  | str (s : String)
  | arr (l : List String)
deriving DecidableEq, Repr

/-- Models the JavaScript pattern `if (!x) skip; x = enforceArray(x)`:
absent values and the empty string are falsy and skipped, a single
string is wrapped into a one-element array, an array (empty arrays are
truthy in JavaScript) is kept as is. -/
def JsParam.truthyList : JsParam → Option (List String)
  | .absent => none
  | .str "" => none
  | .str s => some [s]
  | .arr l => some l

/-- Modelled from the spec: the Range Constraint Resolver
(utils/id-constraints) is required by tx-query.js but absent from the
provided sources. It keeps a pair of optional inclusive bounds over the
64-bit identifier space. -/
structure IdConstraints where
  bottom : Option Int := none
  top : Option Int := none
deriving DecidableEq, Repr

/-- Modelled from the spec: addBottom sets bottom to the max of the
existing bottom (if any) and the new value, so a bound only tightens. -/
def IdConstraints.addBottomConstraint (c : IdConstraints) (v : Int) : IdConstraints :=
  { c with bottom := some (match c.bottom with | none => v | some b => max b v) }

/-- Modelled from the spec: addTop sets top to the min of the existing
top (if any) and the new value, so a bound only tightens. -/
def IdConstraints.addTopConstraint (c : IdConstraints) (v : Int) : IdConstraints :=
  { c with top := some (match c.top with | none => v | some t => min t v) }

/-- Modelled from the spec: a constraint set is empty when neither bound
has been set. -/
def IdConstraints.isEmpty (c : IdConstraints) : Bool :=
  c.bottom.isNone && c.top.isNone

/-- Modelled from the spec: a constraint set is unfeasible when both
bounds are set and the bottom exceeds the top. -/
def IdConstraints.isUnfeasible (c : IdConstraints) : Bool :=
  match c.bottom, c.top with
  | some b, some t => t < b
  | _, _ => false

/-- The JavaScript StrWhiteSpace character set (ECMA-262 WhiteSpace plus
LineTerminator): tab, line feed, vertical tab, form feed, carriage
return, space, no-break space, the Unicode space separators, line
separator, paragraph separator, narrow no-break space, medium
mathematical space, ideographic space and the zero width no-break
space. -/
def isJsWhitespace (c : Char) : Bool :=
  c = ' ' || c = '\t' || c = '\n' || c = '\x0b' || c = '\x0c' || c = '\r' ||
  c.toNat = 0xa0 || c.toNat = 0x1680 ||
  (0x2000 ≤ c.toNat && c.toNat ≤ 0x200a) ||
  c.toNat = 0x2028 || c.toNat = 0x2029 || c.toNat = 0x202f ||
  c.toNat = 0x205f || c.toNat = 0x3000 || c.toNat = 0xfeff

/-- Numeric value of a decimal digit character. -/
def digitVal (c : Char) : Nat := c.toNat - '0'.toNat

/-- Accumulates a list of decimal digit characters into a natural
number, most significant digit first. -/
def decDigitsToNat (ds : List Char) : Nat :=
  ds.foldl (fun a c => a * 10 + digitVal c) 0

/-- An ASCII hexadecimal digit, as accepted by the JavaScript HexDigit
grammar production. -/
def isHexDigitJs (c : Char) : Bool :=
  c.isDigit || ('a' ≤ c && c ≤ 'f') || ('A' ≤ c && c ≤ 'F')

/-- An octal digit. -/
def isOctDigitJs (c : Char) : Bool :=
  '0' ≤ c && c ≤ '7'

/-- A binary digit. -/
def isBinDigitJs (c : Char) : Bool :=
  c = '0' || c = '1'

/-- Numeric value of a hexadecimal digit character of either case. -/
def hexDigitVal (c : Char) : Nat :=
  if c.isDigit then c.toNat - '0'.toNat
  else if 'a' ≤ c && c ≤ 'f' then c.toNat - 'a'.toNat + 10
  else if 'A' ≤ c && c ≤ 'F' then c.toNat - 'A'.toNat + 10
  else 0

/-- Accumulates digit characters in the given base into a natural
number, most significant digit first. -/
def digitsToNat (base : Nat) (ds : List Char) : Nat :=
  ds.foldl (fun a c => a * base + hexDigitVal c) 0

/-- Models the JavaScript builtin conversion BigInt(string), the
StringIntegerLiteral grammar of ECMA-262: leading and trailing
StrWhiteSpace is trimmed; an empty remainder yields 0; the prefixes 0x
or 0X, 0o or 0O, and 0b or 0B introduce an unsigned hexadecimal, octal
or binary numeral with at least one digit; otherwise an optional single
sign must be followed by at least one decimal digit; every other string
makes the conversion throw a SyntaxError (modelled as none). -/
def strToBigInt (s : String) : Option Int :=
  let cs := ((s.toList.dropWhile isJsWhitespace).reverse.dropWhile isJsWhitespace).reverse
  match cs with
  | [] => some 0
  | '0' :: c :: ds =>
      if c = 'x' || c = 'X' then
        if ds ≠ [] && ds.all isHexDigitJs then some (digitsToNat 16 ds : Int) else none
      else if c = 'o' || c = 'O' then
        if ds ≠ [] && ds.all isOctDigitJs then some (digitsToNat 8 ds : Int) else none
      else if c = 'b' || c = 'B' then
        if ds ≠ [] && ds.all isBinDigitJs then some (digitsToNat 2 ds : Int) else none
      else
        if ('0' :: c :: ds).all Char.isDigit then
          some (decDigitsToNat ('0' :: c :: ds) : Int)
        else none
  | '-' :: ds =>
      if ds ≠ [] && ds.all Char.isDigit then some (-(decDigitsToNat ds : Int)) else none
  | '+' :: ds =>
      if ds ≠ [] && ds.all Char.isDigit then some (decDigitsToNat ds : Int) else none
  | ds =>
      if ds.all Char.isDigit then some (decDigitsToNat ds : Int) else none

/-- Models the JavaScript builtin parseInt(string, 10): leading
whitespace is skipped, an optional sign is read, then the longest prefix
of decimal digits; if that prefix is empty the result is NaN (modelled
as none), otherwise the signed value of the prefix. -/
def parseIntJS (s : String) : Option Int :=
  let cs := s.toList.dropWhile isJsWhitespace
  let signAndRest : Int × List Char :=
    match cs with
    | '-' :: r => (-1, r)
    | '+' :: r => (1, r)
    | r => (1, r)
  let ds := signAndRest.2.takeWhile Char.isDigit
  if ds.isEmpty then none else some (signAndRest.1 * (decDigitsToNat ds : Int))

/-- Models the JavaScript coercion `x >>> 0` (ToUint32) on an integral
number: reduction modulo 2 ^ 32 into the range [0, 2 ^ 32). -/
def toUint32 (i : Int) : Int := i % (2 ^ 32 : Int)

/-- A JavaScript value that can end up inside a terms predicate: a
number (operation code or internal identifier), or a member of
Object.prototype that an untyped property lookup on a plain object
reached through the prototype chain (a builtin function, or the
prototype object itself for the __proto__ accessor), identified by the
property name that produced it. -/
inductive TermVal where
  | num (n : Int)
  | protoMember (name : String)
deriving DecidableEq, Repr

instance (n : Nat) : OfNat TermVal n := ⟨.num (Int.ofNat n)⟩

/-- A structured filter predicate accumulated by the pipeline: a
set-membership condition over values, a set-membership condition over
strings (the offer step pushes stringified offer ids), or an inclusive
range over the identifier field. -/
inductive Filter where
  | terms (field : String) (values : List TermVal)
  | termsStr (field : String) (values : List String)
  | range (gte : Option Int) (lte : Option Int)
deriving DecidableEq, Repr

/-- Raw request parameters of a transaction query, one field per filter
name recognised by tx-query.js. The from and to timestamps are checked
against undefined only in the source, hence Option String. -/
structure Params where
  type : JsParam := .absent
  account : JsParam := .absent
  source : JsParam := .absent
  destination : JsParam := .absent
  asset : JsParam := .absent
  src_asset : JsParam := .absent
  dest_asset : JsParam := .absent
  offer : JsParam := .absent
  pool : JsParam := .absent
  memo : JsParam := .absent
  fromTs : Option String := none
  toTs : Option String := none
deriving DecidableEq, Repr

/-- An archive transaction record: the generic identifier under both the
raw key and the mapped key, and the payload fields already rendered to
the strings that tx.hash.toString and tx.body.toString produce. -/
structure Tx where
  _id : Int
  id : Int
  hash : String
  body : String
  meta : String
  result : String
deriving DecidableEq, Repr

/-- The high 32-bit word of the 64-bit transaction identifier (tx.id.high
on the Long value), which is the ledger sequence number. -/
def Tx.idHigh (tx : Tx) : Int := tx.id / (2 ^ 32 : Int)

/-- A ledger metadata record keyed by ledger sequence, carrying the close
timestamp. -/
structure LedgerRec where
  _id : Int
  ts : Int
deriving DecidableEq, Repr

/-- An entry of the API response as assembled by prepareResponseEntry.
Fields that can be left undefined by the source are Option. -/
structure ResponseEntry where
  id : String
  hash : String
  ledger : Option Int
  ts : Option Int
  body : String
  meta : String
  result : String
  paging_token : Option String
deriving DecidableEq, Repr

/-- The search request built by buildQuery for the search index. The
boolFilter field carries the predicate list placed under the bool filter
clause, which the index combines by logical AND without scoring. -/
structure ElasticQuery where
  index : String
  source : Bool
  size : Nat
  timeout : String
  track_total_hits : Nat
  sortField : String
  sortOrder : String
  boolFilter : List Filter
  fields : List String
deriving DecidableEq, Repr

/-- Models an un-awaited JavaScript Promise value: the asynchronous
computation that will eventually produce a value of type α. Awaiting it
yields the wrapped value; using it as if it were the value itself is a
JavaScript type confusion. -/
structure JsPromise (α : Type) where
  value : α

/-- Models JavaScript array destructuring `const [x] = v` applied to a
Promise object rather than to the awaited array: a Promise is not
iterable, so the destructuring raises a TypeError at run time. -/
def destructurePromise {α β : Type} (_p : JsPromise α) : Except JsError β :=
  .error .typeError

/-- The external collaborators consumed by tx-query.js, indexed by
network name where the source passes this.network: the stellar SDK
address check, the asset descriptor canonicalizer, the database
resolvers for accounts, assets, pools and memos, the offer and pool
validators, the ledger timestamp resolver, the search index, the
archive store and the ledger metadata store. Resolver calls are
modelled as total functions, so this environment describes runs in
which every issued lookup settles successfully. -/
structure Env where
  knownNetwork : String → Bool
  isValidAddress : String → Bool
  assetFQAN : String → Option String
  resolveAccounts : String → List String → List Int
  resolveAssets : String → List String → List Int
  resolvePools : String → List String → List Int
  resolveMemos : String → List String → List Int
  validOffer : String → Option Int
  validPool : String → Bool
  resolveSeq : String → Option Int → Int
  opIndex : String → String
  search : ElasticQuery → List Int
  fetchArchiveTransactions : String → List Int → Int → List Tx
  fetchLedgersP : String → List Int → JsPromise (List LedgerRec)
  fetchSingleTx : String → String → Option Tx

/-- Modelled from the spec: normalizeLimit (api-helpers, absent from the
provided sources) clamps and defaults the page size to a bounded numeric
value; the clamp constants are not fixed by the spec and no claim
depends on them. -/
def normalizeLimit (l : Option Int) : Nat :=
  match l with
  | none => 10
  | some v => if v < 1 then 10 else if v > 200 then 200 else v.toNat

/-- Modelled from the spec: normalizeOrder (api-helpers, absent from the
provided sources) maps the asc or desc order onto a numeric sort
direction for the archive store. -/
def normalizeOrder (o : String) : Int :=
  if o = "asc" then 1 else -1

/-- The normalized request state held by a TxQuery instance after its
constructor ran. -/
structure TxQuery where
  network : String
  basePath : String
  order : String
  limit : Nat
  cursor : Option String
  params : Params
deriving DecidableEq, Repr

/-- The TxQuery constructor: destructures order (defaulting to desc when
absent), cursor and limit out of the request parameters, validates the
network, rejects any order other than asc and desc with a validation
error on the order field, and normalizes the limit. -/
def mkTxQuery (env : Env) (network basePath : String) (order : Option String)
    (cursor : Option String) (limit : Option Int) (params : Params) :
    Except JsError TxQuery :=
  if !env.knownNetwork network then .error (.validation "network")
  else
    let ord := order.getD "desc"
    if ord != "asc" && ord != "desc" then .error (.validation "order")
    else .ok { network := network, basePath := basePath, order := ord,
               limit := normalizeLimit limit, cursor := cursor, params := params }

/-- The cursor step: skipped when the cursor is absent or falsy (the
empty string); otherwise the cursor is converted by BigInt, a failed
conversion raises a validation error on the cursor field, a negative
cursor is silently ignored, an asc order adds a bottom bound of
cursor + 1, and a desc order adds a top bound of cursor - 1. -/
def addCursorFilter (q : TxQuery) (c : IdConstraints) : Except JsError IdConstraints :=
  match q.cursor with
  | none => .ok c
  | some s =>
      if s = "" then .ok c
      else
        match strToBigInt s with
        | none => .error (.validation "cursor")
        | some v =>
            if v < 0 then .ok c
            else if q.order = "asc" then .ok (c.addBottomConstraint (v + 1))
            else .ok (c.addTopConstraint (v - 1))

/-- The timestamp range step: a present to parameter is parsed with
parseInt, resolved to a ledger sequence, and contributes a top bound of
BigInt of sequence + 1 coerced by the unsigned 32-bit shift, shifted
left by 32 bits; a present from parameter contributes the analogous
bottom bound without the + 1. The two resolutions are independent, so
the concurrent source is modelled by applying them in sequence. -/
def addTsFilter (env : Env) (q : TxQuery) (c : IdConstraints) : IdConstraints :=
  let c1 :=
    match q.params.toTs with
    | none => c
    | some t =>
        c.addTopConstraint (toUint32 (env.resolveSeq q.network (parseIntJS t) + 1) * 2 ^ 32)
  match q.params.fromTs with
  | none => c1
  | some f =>
      c1.addBottomConstraint (toUint32 (env.resolveSeq q.network (parseIntJS f)) * 2 ^ 32)

/-- A value the untyped JavaScript lookup on the taxonomy table can
produce: a named group expanding to several operation codes, a single
operation name mapped to one code, or a member of Object.prototype
found through the prototype chain. -/
inductive TypeEntry where
  | group (codes : List Int)
  | single (code : Int)
  | inherited (name : String)
deriving DecidableEq, Repr

/-- The own keys of the static type taxonomy table typeMapping of
tx-query.js. -/
def typeMappingOwn : String → Option TypeEntry
  | "payments" => some (.group [0, 1, 2, 8, 9, 13, 14, 15, 19, 20])
  | "trustlines" => some (.group [6, 7, 21])
  | "dex" => some (.group [3, 4, 12, 22, 23])
  | "settings" => some (.group [0, 5, 6, 7, 8, 9, 10, 11, 16, 17, 18, 21])
  | "createAccount" => some (.single 0)
  | "payment" => some (.single 1)
  | "pathPaymentStrictReceive" => some (.single 2)
  | "pathPaymentStrictSend" => some (.single 13)
  | "createPassiveSellOffer" => some (.single 4)
  | "manageSellOffer" => some (.single 3)
  | "manageBuyOffer" => some (.single 12)
  | "setOptions" => some (.single 5)
  | "changeTrust" => some (.single 6)
  | "allowTrust" => some (.single 7)
  | "accountMerge" => some (.single 8)
  | "inflation" => some (.single 9)
  | "manageData" => some (.single 10)
  | "bumpSequence" => some (.single 11)
  | "createClaimableBalance" => some (.single 14)
  | "claimClaimableBalance" => some (.single 15)
  | "beginSponsoringFutureReserves" => some (.single 16)
  | "endSponsoringFutureReserves" => some (.single 17)
  | "revokeSponsorship" => some (.single 18)
  | "clawback" => some (.single 19)
  | "clawbackClaimableBalance" => some (.single 20)
  | "setTrustLineFlags" => some (.single 21)
  | "liquidityPoolDeposit" => some (.single 22)
  | "liquidityPoolWithdraw" => some (.single 23)
  | _ => none

/-- The property names every plain JavaScript object resolves through
the Object.prototype chain: an untyped lookup of one of these on the
taxonomy table yields the inherited member, not undefined. -/
def objectPrototypeKeys : List String :=
  ["constructor", "hasOwnProperty", "isPrototypeOf", "propertyIsEnumerable",
   "toLocaleString", "toString", "valueOf", "__proto__",
   "__defineGetter__", "__defineSetter__", "__lookupGetter__", "__lookupSetter__"]

/-- The JavaScript property lookup typeMapping[value] on the taxonomy
object literal: an own key yields its table entry; otherwise the lookup
walks the prototype chain, so an Object.prototype property name yields
the inherited member (which is defined, hence not filtered out by the
undefined check of the source); every other string yields undefined. -/
def typeMapping (v : String) : Option TypeEntry :=
  match typeMappingOwn v with
  | some e => some e
  | none => if v ∈ objectPrototypeKeys then some (.inherited v) else none

/-- Insertion into a JavaScript Set modelled as a duplicate-free list in
insertion order: an element already present is kept where it is, a new
element is appended. -/
def setAdd {α : Type} [DecidableEq α] (s : List α) (n : α) : List α :=
  if n ∈ s then s else s ++ [n]

/-- The value loop of the type step: each value is first looked up in
the taxonomy object (groups contribute all their codes, single entries
one code, and an inherited Object.prototype member is not undefined and
not an array, so the source adds it to the set and continues without
any error); otherwise the value is parsed with parseInt and accepted
only when the result is a number between 0 and 23, every other value
raising a validation error on the type field. Accepted values
accumulate in the insertion-ordered set. -/
def collectTypes : List String → List TermVal → Except JsError (List TermVal)
  | [], acc => .ok acc
  | v :: rest, acc =>
      match typeMapping v with
      | some (.group l) => collectTypes rest (l.foldl (fun a n => setAdd a (.num n)) acc)
      | some (.single n) => collectTypes rest (setAdd acc (.num n))
      | some (.inherited name) => collectTypes rest (setAdd acc (.protoMember name))
      | none =>
          match parseIntJS v with
          | some n =>
              if 0 ≤ n && n ≤ 23 then collectTypes rest (setAdd acc (.num n))
              else .error (.validation "type")
          | none => .error (.validation "type")

/-- The type step: skipped for a falsy type parameter; more than 30
supplied values raise a validation error on the type field; otherwise
the value loop runs and a non-empty resulting code set is emitted as one
set-membership predicate on the type field. -/
def addTypesFilter (q : TxQuery) (filters : List Filter) : Except JsError (List Filter) :=
  match q.params.type.truthyList with
  | none => .ok filters
  | some vs =>
      if vs.length > 30 then .error (.validation "type")
      else
        match collectTypes vs [] with
        | .error e => .error e
        | .ok codes =>
            if codes.isEmpty then .ok filters
            else .ok (filters ++ [.terms "type" codes])

/-- The mutable per-request state threaded through the filter pipeline:
the accumulated predicates, the identifier range constraints, and the
unsatisfiable flag. -/
structure QState where
  filters : List Filter := []
  constraints : IdConstraints := {}
  isUnfeasible : Bool := false
deriving DecidableEq, Repr

/-- One role of the account step: a falsy parameter or an empty array is
skipped; more than 10 addresses raise a validation error on the
parameter name; a structurally invalid address raises a validation
error on the parameter name; the batch of addresses is resolved against
the account store, an empty match sets the unsatisfiable flag while the
step keeps processing the remaining roles, and a non-empty match is
emitted as one set-membership predicate on the role field. -/
def accountRole (env : Env) (network : String) (pname key : String) (p : JsParam)
    (st : QState) : Except JsError QState :=
  match p.truthyList with
  | none => .ok st
  | some addresses =>
      if addresses.isEmpty then .ok st
      else if addresses.length > 10 then .error (.validation pname)
      else if addresses.all env.isValidAddress then
        let ids := env.resolveAccounts network addresses
        if ids.isEmpty then .ok { st with isUnfeasible := true }
        else .ok { st with filters := st.filters ++ [.terms key (ids.map .num)] }
      else .error (.validation pname)

/-- The account step: the three roles account, source and destination
processed in this order over the shared state. -/
def addAccountFilter (env : Env) (q : TxQuery) (st : QState) : Except JsError QState := do
  let st ← accountRole env q.network "account" "accounts" q.params.account st
  let st ← accountRole env q.network "source" "source" q.params.source st
  accountRole env q.network "destination" "destination" q.params.destination st

/-- Canonicalizes a list of asset descriptors to fully qualified asset
names, raising a validation error on the parameter name at the first
malformed descriptor. -/
def canonicalizeAssets (env : Env) (pname : String) : List String → Except JsError (List String)
  | [] => .ok []
  | a :: rest =>
      match env.assetFQAN a with
      | none => .error (.validation pname)
      | some fqan => do
          let tail ← canonicalizeAssets env pname rest
          return fqan :: tail

/-- One role of the asset step: falsy or empty parameters are skipped;
more than 10 assets raise a validation error on the parameter name; the
descriptors are canonicalized and batch-resolved against the asset
store, an empty match sets the unsatisfiable flag while the step keeps
processing the remaining roles, and a non-empty match is emitted as one
set-membership predicate on the role field. -/
def assetRole (env : Env) (network : String) (pname key : String) (p : JsParam)
    (st : QState) : Except JsError QState :=
  match p.truthyList with
  | none => .ok st
  | some assets =>
      if assets.isEmpty then .ok st
      else if assets.length > 10 then .error (.validation pname)
      else
        match canonicalizeAssets env pname assets with
        | .error e => .error e
        | .ok fqans =>
            let ids := env.resolveAssets network fqans
            if ids.isEmpty then .ok { st with isUnfeasible := true }
            else .ok { st with filters := st.filters ++ [.terms key (ids.map .num)] }

/-- The asset step: the three roles asset, src_asset and dest_asset
processed in this order over the shared state. -/
def addAssetFilter (env : Env) (q : TxQuery) (st : QState) : Except JsError QState := do
  let st ← assetRole env q.network "asset" "assets" q.params.asset st
  let st ← assetRole env q.network "src_asset" "srcAsset" q.params.src_asset st
  assetRole env q.network "dest_asset" "desAsset" q.params.dest_asset st

/-- Validates and stringifies a list of offer ids, raising a validation
error on the offer field at the first malformed value. -/
def validateOffers (env : Env) : List String → Except JsError (List String)
  | [] => .ok []
  | o :: rest =>
      match env.validOffer o with
      | none => .error (.validation "offer")
      | some n => do
          let tail ← validateOffers env rest
          return toString n :: tail

/-- The offer step: skipped for a falsy parameter; more than 10 offers
raise a validation error; each offer is validated and normalized to its
canonical string form; a non-empty list is emitted as one
set-membership predicate on the offer field. -/
def addOfferFilter (env : Env) (q : TxQuery) (st : QState) : Except JsError QState :=
  match q.params.offer.truthyList with
  | none => .ok st
  | some offers =>
      if offers.length > 10 then .error (.validation "offer")
      else
        match validateOffers env offers with
        | .error e => .error e
        | .ok normalized =>
            if normalized.isEmpty then .ok st
            else .ok { st with filters := st.filters ++ [.termsStr "offer" normalized] }

/-- The pool step: skipped for a falsy parameter; more than 10 pools
raise a validation error; each pool hash is structurally validated; the
batch is resolved against the pool store, an empty match (the source has
no emptiness guard before the lookup, so an empty array also resolves
to an empty match) sets the unsatisfiable flag, and a non-empty match
is emitted as one set-membership predicate on the pool field. -/
def addPoolFilter (env : Env) (q : TxQuery) (st : QState) : Except JsError QState :=
  match q.params.pool.truthyList with
  | none => .ok st
  | some pools =>
      if pools.length > 10 then .error (.validation "pool")
      else if pools.all env.validPool then
        let ids := env.resolvePools q.network pools
        if ids.isEmpty then .ok { st with isUnfeasible := true }
        else .ok { st with filters := st.filters ++ [.terms "pool" (ids.map .num)] }
      else .error (.validation "pool")

/-- The memo step: skipped for a falsy parameter or an empty array; more
than 10 memos raise a validation error; the batch is resolved via the
memo resolver, an empty match sets the unsatisfiable flag, and a
non-empty match is emitted as one set-membership predicate on the memo
field. -/
def addMemoFilter (env : Env) (q : TxQuery) (st : QState) : Except JsError QState :=
  match q.params.memo.truthyList with
  | none => .ok st
  | some memos =>
      if memos.isEmpty then .ok st
      else if memos.length > 10 then .error (.validation "memo")
      else
        let ids := env.resolveMemos q.network memos
        if ids.isEmpty then .ok { st with isUnfeasible := true }
        else .ok { st with filters := st.filters ++ [.terms "memo" (ids.map .num)] }

/-- The identifier range step: no bounds means no predicate; unfeasible
bounds set the unsatisfiable flag; otherwise the resolved inclusive
bounds are emitted as one range predicate over the identifier field. -/
def addIdRangeFilter (st : QState) : QState :=
  if st.constraints.isEmpty then st
  else if st.constraints.isUnfeasible then { st with isUnfeasible := true }
  else { st with filters := st.filters ++ [.range st.constraints.bottom st.constraints.top] }

/-- The cursor step lifted to the pipeline state. -/
def cursorStep (q : TxQuery) (st : QState) : Except JsError QState :=
  (addCursorFilter q st.constraints).map (fun c => { st with constraints := c })

/-- The timestamp range step lifted to the pipeline state. -/
def tsStep (env : Env) (q : TxQuery) (st : QState) : Except JsError QState :=
  .ok { st with constraints := addTsFilter env q st.constraints }

/-- The type step lifted to the pipeline state. -/
def typesStep (q : TxQuery) (st : QState) : Except JsError QState :=
  (addTypesFilter q st.filters).map (fun f => { st with filters := f })

/-- The identifier range step lifted to the pipeline state. -/
def idRangeStep (st : QState) : Except JsError QState :=
  .ok (addIdRangeFilter st)

/-- The fixed step sequence of fetchData, in source order. -/
def pipelineSteps (env : Env) (q : TxQuery) : List (QState → Except JsError QState) :=
  [cursorStep q,
   tsStep env q,
   idRangeStep,
   typesStep q,
   addAccountFilter env q,
   addAssetFilter env q,
   addOfferFilter env q,
   addPoolFilter env q,
   addMemoFilter env q]

/-- Runs one pipeline step over the accumulated outcome: an error or an
already detected unsatisfiable request passes through; otherwise the
step runs, its error propagates, and a state with the unsatisfiable
flag set short-circuits the rest of the pipeline (the none outcome),
mirroring the per-step check of fetchData. -/
def runChecked (f : QState → Except JsError QState) :
    Except JsError (Option QState) → Except JsError (Option QState)
  | .error e => .error e
  | .ok none => .ok none
  | .ok (some st) =>
      match f st with
      | .error e => .error e
      | .ok st' => if st'.isUnfeasible then .ok none else .ok (some st')

/-- The filter builder pipeline of fetchData: all nine steps run in the
fixed order over the fresh state, with the per-step unsatisfiable
check. The none outcome means the request was detected unsatisfiable
and the index lookup is skipped. -/
def runPipeline (env : Env) (q : TxQuery) : Except JsError (Option QState) :=
  (pipelineSteps env q).foldl (fun acc f => runChecked f acc) (.ok (some {}))

/-- The search request builder buildQuery: the index configured for the
network, no source payloads, page size and total-hit cap equal to the
normalized limit, a fixed 5 second timeout, sorting by the identifier
field in the requested order, the accumulated predicates under a bool
filter clause, and a projection of only the identifier field. -/
def buildQuery (env : Env) (q : TxQuery) (filter : List Filter) : ElasticQuery :=
  { index := env.opIndex q.network,
    source := false,
    size := q.limit,
    timeout := "5s",
    track_total_hits := q.limit,
    sortField := "id",
    sortOrder := q.order,
    boolFilter := filter,
    fields := ["id"] }

/-- The search request that fetchData submits for a query that survives
the pipeline, none when the pipeline errors or short-circuits. -/
def builtRequest (env : Env) (q : TxQuery) : Option ElasticQuery :=
  match runPipeline env q with
  | .ok (some st) => some (buildQuery env q st.filters)
  | _ => none

/-- prepareResponseEntry: renders the identifier to its decimal string,
copies the payload fields, attaches the ledger sequence and close
timestamp from the ledger record when one was found (the source
defaults a missing record to an empty object whose fields read as
undefined), and adds a paging token equal to the identifier string only
when requested. -/
def prepareResponseEntry (tx : Tx) (ledger : Option LedgerRec) (addPagingToken : Bool) :
    ResponseEntry :=
  let id := toString tx.id
  { id := id,
    hash := tx.hash,
    ledger := ledger.map (fun l => l._id),
    ts := ledger.map (fun l => l.ts),
    body := tx.body,
    meta := tx.meta,
    result := tx.result,
    paging_token := if addPagingToken then some id else none }

/-- fetchLedgersInfo: derives the distinct ledger sequence numbers as the
high 32-bit words of the transaction identifiers, batch-fetches the
ledger records for them (awaited here), and keys the result by ledger
sequence; a repeated key keeps the last record, as assignment into the
JavaScript dictionary does. -/
def fetchLedgersInfo (env : Env) (network : String) (txIds : List Int) :
    Int → Option LedgerRec :=
  let ledgerIds := txIds.foldl (fun acc id => setAdd acc (id / (2 ^ 32 : Int))) []
  let ledgers := (env.fetchLedgersP network ledgerIds).value
  fun seq => ledgers.reverse.find? (fun l => l._id = seq)

/-- fetchData: runs the filter builder pipeline (returning the empty
record list without touching the index when a step detects the request
unsatisfiable), builds and executes the search request, and when hits
came back fuses archive records with their ledger metadata into
response entries with paging tokens. The boolean reports whether the
search index was invoked. -/
def fetchData (env : Env) (q : TxQuery) : Except JsError (List ResponseEntry) × Bool :=
  match runPipeline env q with
  | .error e => (.error e, false)
  | .ok none => (.ok [], false)
  | .ok (some st) =>
      let req := buildQuery env q st.filters
      let ids := env.search req
      if ids.isEmpty then (.ok [], true)
      else
        let txs := env.fetchArchiveTransactions q.network ids (normalizeOrder q.order)
        let lookup := fetchLedgersInfo env q.network ids
        (.ok (txs.map (fun tx => prepareResponseEntry tx (lookup tx.idHigh) true)), true)

/-- Modelled from the spec: preparePagedData (api-helpers, absent from
the provided sources) wraps the base path, the normalized request
parameters and the record list into the paged response envelope. -/
structure PagedResponse where
  basePath : String
  sort : String
  order : String
  cursor : Option String
  limit : Nat
  records : List ResponseEntry
deriving DecidableEq, Repr

/-- Modelled from the spec: the paging envelope builder. -/
def preparePagedData (basePath sort order : String) (cursor : Option String)
    (limit : Nat) (records : List ResponseEntry) : PagedResponse :=
  { basePath := basePath, sort := sort, order := order, cursor := cursor,
    limit := limit, records := records }

/-- The standard empty paged envelope emitted by emptyResponse. -/
def emptyResponse (q : TxQuery) : PagedResponse :=
  preparePagedData q.basePath "id" q.order q.cursor q.limit []

/-- toArray: the source first consults this.isUnfeasible and the
constraint resolver, both still holding their freshly constructed
values at this point, then fetches the records and wraps them into the
paged envelope. The boolean reports whether the search index was
invoked. -/
def toArray (env : Env) (q : TxQuery) : Except JsError PagedResponse × Bool :=
  if ({} : QState).isUnfeasible || ({} : IdConstraints).isUnfeasible then
    (.ok (emptyResponse q), false)
  else
    match fetchData env q with
    | (.error e, invoked) => (.error e, invoked)
    | (.ok records, invoked) =>
        (.ok (preparePagedData q.basePath "id" q.order q.cursor q.limit records), invoked)

/-- fetchTx, the single record lookup: an identifier-or-hash string
longer than 64 characters is a validation error on the id field; the
network is validated; an absent transaction is a not-found error. When
the transaction is found, the source reads the first element of the
result of the asynchronous ledger store call with array destructuring
but never awaits the call, so the destructuring runs on the Promise
object itself, which is not iterable, and raises a TypeError; the
remaining line would merge the ledger timestamp into a Response Entry
without a paging token. -/
def fetchTx (env : Env) (network idOrHash : String) : Except JsError ResponseEntry :=
  if idOrHash.length > 64 then .error (.validation "id")
  else if !env.knownNetwork network then .error (.validation "network")
  else
    match env.fetchSingleTx network idOrHash with
    | none => .error .notFound
    | some tx =>
        match destructurePromise (env.fetchLedgersP network [tx._id]) with
        | .error e => .error e
        | .ok (ledger : Option LedgerRec) => .ok (prepareResponseEntry tx ledger false)

/-! Concrete fixtures used by witnesses and counterexamples. -/

/-- A concrete environment: the public network is known, the only
structurally valid address is A, account lookups match nothing, the
other resolvers return fixed identifiers, and every timestamp resolves
to the maximal 32-bit ledger sequence. -/
def sampleEnv : Env :=
  { knownNetwork := fun n => n = "public",
    isValidAddress := fun s => s = "A",
    assetFQAN := fun s => if s = "bad" then none else some s,
    resolveAccounts := fun _ _ => [],
    resolveAssets := fun _ _ => [7],
    resolvePools := fun _ _ => [3],
    resolveMemos := fun _ _ => [4],
    validOffer := fun s => if s = "9" then some 9 else none,
    validPool := fun _ => true,
    resolveSeq := fun _ _ => 4294967295,
    opIndex := fun _ => "op_public",
    search := fun _ => [],
    fetchArchiveTransactions := fun _ _ _ => [],
    fetchLedgersP := fun _ _ => ⟨[⟨77, 1700000000⟩]⟩,
    fetchSingleTx := fun _ h => if h = "ff" then some ⟨330712481792, 330712481792, "ab", "b", "m", "r"⟩ else none }

/-- A supplied type value that is neither resolved by the taxonomy
object lookup (an own table key, or an inherited Object.prototype
property name found through the prototype chain and silently accepted)
nor a value whose parseInt result is an operation code between 0 and
23: exactly the values the value loop of the type step rejects. -/
def invalidTypeValue (v : String) : Bool :=
  match typeMapping v with
  | some _ => false
  | none =>
      match parseIntJS v with
      | some n => !(0 ≤ n && n ≤ 23)
      | none => true

/-- A concrete query on the public network with no filter parameters. -/
def sampleQuery : TxQuery :=
  { network := "public", basePath := "/tx", order := "desc", limit := 10,
    cursor := none, params := {} }

/-! Helper lemmas about the modelled Range Constraint Resolver. -/

/-- Adding a bottom constraint never touches the top bound. -/
theorem addBottomConstraint_top (c : IdConstraints) (v : Int) :
    (c.addBottomConstraint v).top = c.top := rfl

/-- Adding a top constraint never touches the bottom bound. -/
theorem addTopConstraint_bottom (c : IdConstraints) (v : Int) :
    (c.addTopConstraint v).bottom = c.bottom := rfl

/-- C10: a cursor equal to the empty string is treated as if no cursor
were supplied: the cursor step leaves the constraints unchanged and
raises no failure, rather than attempting to parse it as an integer. -/
theorem c10_empty_cursor_ignored (q : TxQuery) (c : IdConstraints)
    (h : q.cursor = some "") : addCursorFilter q c = .ok c := by
  unfold addCursorFilter
  rw [h]
  rfl

/-- Witness for C10 at a concrete query. -/
theorem c10_witness :
    addCursorFilter { sampleQuery with cursor := some "" } {} = .ok {} :=
  c10_empty_cursor_ignored { sampleQuery with cursor := some "" } {} rfl

/-- C4: for every nonempty cursor string parsing to a non-negative
integer v, the cursor step with order asc adds a bottom bound of v + 1
(leaving the top bound untouched) and with order desc adds a top bound
of v - 1 (leaving the bottom bound untouched). -/
theorem c4_cursor_bounds (q : TxQuery) (c : IdConstraints) (s : String) (v : Int)
    (hcur : q.cursor = some s) (hne : s ≠ "") (hp : strToBigInt s = some v)
    (hnn : 0 ≤ v) :
    (q.order = "asc" →
      addCursorFilter q c = .ok (c.addBottomConstraint (v + 1)) ∧
      (c.addBottomConstraint (v + 1)).top = c.top) ∧
    (q.order = "desc" →
      addCursorFilter q c = .ok (c.addTopConstraint (v - 1)) ∧
      (c.addTopConstraint (v - 1)).bottom = c.bottom) := by
  unfold addCursorFilter
  rw [hcur]
  simp only [if_neg hne, hp, if_neg (not_lt.mpr hnn)]
  constructor
  · intro hord
    rw [if_pos hord]
    exact ⟨rfl, rfl⟩
  · intro hord
    rw [if_neg (by rw [hord]; decide)]
    exact ⟨rfl, rfl⟩

/-- Witness for C4: cursor 1000 with order asc adds bottom bound 1001,
cursor 1000 with order desc adds top bound 999. -/
theorem c4_witness :
    addCursorFilter { sampleQuery with cursor := some "1000", order := "asc" } {} =
      .ok { bottom := some 1001, top := none } ∧
    addCursorFilter { sampleQuery with cursor := some "1000", order := "desc" } {} =
      .ok { bottom := none, top := some 999 } := by
  constructor
  · exact ((c4_cursor_bounds { sampleQuery with cursor := some "1000", order := "asc" }
      {} "1000" 1000 rfl (by decide) (by decide) (by decide)).1 rfl).1
  · exact ((c4_cursor_bounds { sampleQuery with cursor := some "1000", order := "desc" }
      {} "1000" 1000 rfl (by decide) (by decide) (by decide)).2 rfl).1

/-- C7: for every supplied nonempty cursor string, the cursor step
raises a validation failure attributed to the cursor field exactly when
the string fails to convert to an integer, and a cursor converting to a
negative integer is silently ignored: the constraints are unchanged and
no failure is raised. -/
theorem c7_cursor_error_iff (q : TxQuery) (c : IdConstraints) (s : String)
    (hcur : q.cursor = some s) (hne : s ≠ "") :
    (addCursorFilter q c = .error (.validation "cursor") ↔ strToBigInt s = none) ∧
    (∀ v, strToBigInt s = some v → v < 0 → addCursorFilter q c = .ok c) := by
  unfold addCursorFilter
  rw [hcur]
  simp only [if_neg hne]
  constructor
  · cases hp : strToBigInt s with
    | none => simp
    | some v =>
        simp only [hp]
        constructor
        · intro habs
          by_cases hv : v < 0
          · rw [if_pos hv] at habs; cases habs
          · rw [if_neg hv] at habs
            by_cases hord : q.order = "asc"
            · rw [if_pos hord] at habs; cases habs
            · rw [if_neg hord] at habs; cases habs
        · intro habs; cases habs
  · intro v hp hv
    simp only [hp, if_pos hv]

/-- The value loop of the type step raises a validation failure on the
type field whenever the supplied list contains an invalid value, from
any accumulator. -/
theorem collectTypes_invalid :
    ∀ (vs : List String) (acc : List TermVal), (∃ v ∈ vs, invalidTypeValue v = true) →
      collectTypes vs acc = .error (.validation "type")
  | [], _, h => by simp at h
  | v :: rest, acc, h => by
      rcases h with ⟨w, hw, hbad⟩
      rcases List.mem_cons.mp hw with h1 | h2
      · subst h1
        cases hm : typeMapping w with
        | some e =>
            exfalso
            unfold invalidTypeValue at hbad
            rw [hm] at hbad
            exact Bool.false_ne_true hbad
        | none =>
            cases hp : parseIntJS w with
            | some n =>
                have hcond : (0 ≤ n && n ≤ 23) = false := by
                  unfold invalidTypeValue at hbad
                  rw [hm, hp, Bool.not_eq_eq_eq_not, Bool.not_true] at hbad
                  exact hbad
                unfold collectTypes
                rw [hm, hp]
                simp [hcond]
            | none =>
                unfold collectTypes
                rw [hm, hp]
      · cases hm : typeMapping v with
        | some e =>
            cases e with
            | group l =>
                unfold collectTypes
                rw [hm]
                exact collectTypes_invalid rest _ ⟨w, h2, hbad⟩
            | single n =>
                unfold collectTypes
                rw [hm]
                exact collectTypes_invalid rest _ ⟨w, h2, hbad⟩
            | inherited name =>
                unfold collectTypes
                rw [hm]
                exact collectTypes_invalid rest _ ⟨w, h2, hbad⟩
        | none =>
            cases hp : parseIntJS v with
            | some n =>
                unfold collectTypes
                rw [hm, hp]
                by_cases hr : (0 ≤ n && n ≤ 23) = true
                · simp only [hr, if_true]
                  exact collectTypes_invalid rest _ ⟨w, h2, hbad⟩
                · simp [hr]
            | none =>
                unfold collectTypes
                rw [hm, hp]

/-- C3 counterexample: the value toString is neither a mnemonic of the
taxonomy table (it is not among its own keys) nor numeric, yet the type
step raises no validation failure: the untyped JavaScript lookup finds
the inherited Object.prototype member, which is not undefined and not
an array, so the source silently adds it to the set and emits it inside
the terms predicate. -/
theorem c3_counterexample :
    typeMappingOwn "toString" = none ∧
    parseIntJS "toString" = none ∧
    addTypesFilter { sampleQuery with params := { type := .arr ["toString"] } } [] =
      .ok [.terms "type" [.protoMember "toString"]] :=
  ⟨rfl, rfl, rfl⟩

/-- C3 amended: with the type parameter present as a value list, the
type step raises a validation failure attributed to the type field when
more than 30 values are supplied, and also whenever any supplied value
is neither resolved by the taxonomy object lookup (an own table key or
an inherited Object.prototype property name) nor a value parsing to a
numeric operation code between 0 and 23. -/
theorem c3_type_validation (q : TxQuery) (filters : List Filter) (vs : List String)
    (h : q.params.type.truthyList = some vs) :
    (vs.length > 30 → addTypesFilter q filters = .error (.validation "type")) ∧
    ((∃ v ∈ vs, invalidTypeValue v = true) →
      addTypesFilter q filters = .error (.validation "type")) := by
  unfold addTypesFilter
  rw [h]
  constructor
  · intro hlen
    simp [hlen]
  · intro hbad
    by_cases hlen : vs.length > 30
    · simp [hlen]
    · have hc := collectTypes_invalid vs [] hbad
      simp [hlen, hc]

/-- Witness for C3: a single unknown mnemonic raises the failure, and 31
supplied values raise the failure. -/
theorem c3_witness :
    addTypesFilter { sampleQuery with params := { type := .arr ["weird"] } } [] =
      .error (.validation "type") ∧
    addTypesFilter { sampleQuery with params := { type := .arr (List.replicate 31 "1") } } [] =
      .error (.validation "type") := by
  constructor
  · exact (c3_type_validation { sampleQuery with params := { type := .arr ["weird"] } }
      [] ["weird"] rfl).2 ⟨"weird", by decide, by decide⟩
  · exact (c3_type_validation
      { sampleQuery with params := { type := .arr (List.replicate 31 "1") } }
      [] (List.replicate 31 "1") rfl).1 (by decide)

/-- C5: the type step expands the mnemonic payments to exactly the code
set with elements 0, 1, 2, 8, 9, 13, 14, 15, 19 and 20, and the mixed
input list of payment and 5 yields the de-duplicated code set with
elements 1 and 5, each emitted as a single set-membership predicate on
the type field. -/
theorem c5_payments_expansion :
    addTypesFilter { sampleQuery with params := { type := .str "payments" } } [] =
      .ok [.terms "type" [0, 1, 2, 8, 9, 13, 14, 15, 19, 20]] ∧
    addTypesFilter { sampleQuery with params := { type := .arr ["payment", "5"] } } [] =
      .ok [.terms "type" [1, 5]] := by
  constructor <;> rfl

/-- C6 counterexample: with every timestamp resolving to the maximal
32-bit ledger sequence 4294967295, the to bound actually added is 0,
because the unsigned 32-bit coercion of the source wraps sequence + 1
to 0 before the 32-bit left shift, whereas the claimed bound
(sequence + 1) shifted left by 32 bits is 2 ^ 64. -/
theorem c6_counterexample :
    addTsFilter sampleEnv { sampleQuery with params := { toTs := some "0" } } {} =
      { bottom := none, top := some 0 } ∧
    sampleEnv.resolveSeq "public" (parseIntJS "0") = 4294967295 ∧
    (0 : Int) ≠ (4294967295 + 1) * 2 ^ 32 := by
  refine ⟨by decide, by decide, by decide⟩

/-- C6 amended: for a to timestamp resolving to sequence s the step adds
a top bound of ((s + 1) mod 2 ^ 32) shifted left by 32 bits, and for a
from timestamp resolving to sequence s a bottom bound of (s mod 2 ^ 32)
shifted left by 32 bits, computed exactly in arbitrary-precision
integers; the added bounds agree with the claimed (s + 1) and s shifted
left by 32 bits whenever s + 1, respectively s, is below 2 ^ 32. -/
theorem c6_ts_bounds (env : Env) (q : TxQuery) (c : IdConstraints) :
    (∀ t, q.params.toTs = some t →
      (addTsFilter env q c).top =
        (c.addTopConstraint
          (toUint32 (env.resolveSeq q.network (parseIntJS t) + 1) * 2 ^ 32)).top) ∧
    (∀ f, q.params.fromTs = some f →
      (addTsFilter env q c).bottom =
        (c.addBottomConstraint
          (toUint32 (env.resolveSeq q.network (parseIntJS f)) * 2 ^ 32)).bottom) ∧
    (∀ s : Int, 0 ≤ s → s + 1 < 2 ^ 32 → toUint32 (s + 1) * 2 ^ 32 = (s + 1) * 2 ^ 32) ∧
    (∀ s : Int, 0 ≤ s → s < 2 ^ 32 → toUint32 s * 2 ^ 32 = s * 2 ^ 32) := by
  refine ⟨?_, ?_, ?_, ?_⟩
  · intro t ht
    unfold addTsFilter
    rw [ht]
    cases hf : q.params.fromTs with
    | none => rfl
    | some f => rfl
  · intro f hf
    unfold addTsFilter
    rw [hf]
    cases ht : q.params.toTs with
    | none => rfl
    | some t => rfl
  · intro s hs hlt
    unfold toUint32
    rw [Int.emod_eq_of_lt (by omega) hlt]
  · intro s hs hlt
    unfold toUint32
    rw [Int.emod_eq_of_lt hs hlt]

/-- Witness for C6 amended: a from timestamp resolving to sequence
4294967295 adds a bottom bound of exactly 4294967295 shifted left by 32
bits, with no wrap below 2 ^ 32. -/
theorem c6_witness :
    (addTsFilter sampleEnv { sampleQuery with params := { fromTs := some "0" } } {}).bottom =
      some (4294967295 * 2 ^ 32) := by
  have h := (c6_ts_bounds sampleEnv
    { sampleQuery with params := { fromTs := some "0" } } {}).2.1 "0" rfl
  rw [h]
  have h2 := (c6_ts_bounds sampleEnv
    { sampleQuery with params := { fromTs := some "0" } } {}).2.2.2
    (sampleEnv.resolveSeq "public" (parseIntJS "0")) (by decide) (by decide)
  decide

/-- C9: constructing a query with the order parameter absent succeeds
with the order defaulting to desc, while any explicitly supplied order
other than asc and desc is rejected with a validation failure on the
order field. -/
theorem c9_order_default (env : Env) (net bp : String) (cur : Option String)
    (lim : Option Int) (ps : Params) (h : env.knownNetwork net = true) :
    mkTxQuery env net bp none cur lim ps =
      .ok { network := net, basePath := bp, order := "desc",
            limit := normalizeLimit lim, cursor := cur, params := ps } ∧
    (∀ o, o ≠ "asc" → o ≠ "desc" →
      mkTxQuery env net bp (some o) cur lim ps = .error (.validation "order")) := by
  unfold mkTxQuery
  rw [h]
  constructor
  · simp
  · intro o h1 h2
    simp [h1, h2]

/-- Witness for C9: on the known public network, an absent order yields
a query with order desc, and the order sideways is rejected. -/
theorem c9_witness :
    mkTxQuery sampleEnv "public" "/tx" none none none {} =
      .ok { network := "public", basePath := "/tx", order := "desc",
            limit := normalizeLimit none, cursor := none, params := {} } ∧
    mkTxQuery sampleEnv "public" "/tx" (some "sideways") none none {} =
      .error (.validation "order") :=
  ⟨(c9_order_default sampleEnv "public" "/tx" none none {} (by decide)).1,
   (c9_order_default sampleEnv "public" "/tx" none none {} (by decide)).2
     "sideways" (by decide) (by decide)⟩

/-- C8: for every query that survives the pipeline, the search request
actually built is filter-only over the accumulated predicates with no
scoring, has page size equal to the normalized limit held by the query,
sorts by the identifier field in the requested order, carries the fixed
5 second timeout, caps total-hit counting at the page size, targets the
index configured for the network, and projects only the document
identifier. -/
theorem c8_query_shape (env : Env) (q : TxQuery) (r : ElasticQuery)
    (h : builtRequest env q = some r) :
    r.source = false ∧ r.size = q.limit ∧ r.timeout = "5s" ∧
    r.track_total_hits = r.size ∧ r.sortField = "id" ∧ r.sortOrder = q.order ∧
    r.fields = ["id"] ∧ r.index = env.opIndex q.network ∧
    ∃ st, runPipeline env q = .ok (some st) ∧ r.boolFilter = st.filters := by
  unfold builtRequest at h
  cases hrp : runPipeline env q with
  | error e => rw [hrp] at h; cases h
  | ok o =>
      cases o with
      | none => rw [hrp] at h; cases h
      | some st =>
          rw [hrp] at h
          have h' : some (buildQuery env q st.filters) = some r := h
          injection h' with h'
          subst h'
          exact ⟨rfl, rfl, rfl, rfl, rfl, rfl, rfl, rfl, st, rfl, rfl⟩

/-- Witness for C8: the concrete unfiltered query survives the pipeline
and its built request has the claimed shape. -/
theorem c8_witness :
    builtRequest sampleEnv sampleQuery = some (buildQuery sampleEnv sampleQuery []) ∧
    (buildQuery sampleEnv sampleQuery []).source = false ∧
    (buildQuery sampleEnv sampleQuery []).track_total_hits =
      (buildQuery sampleEnv sampleQuery []).size := by
  have h : builtRequest sampleEnv sampleQuery = some (buildQuery sampleEnv sampleQuery []) := by
    decide
  have hp := c8_query_shape sampleEnv sampleQuery (buildQuery sampleEnv sampleQuery []) h
  exact ⟨h, hp.1, hp.2.2.2.1⟩

/-- C2 counterexample: the account filter of the concrete query resolves
its single valid address to zero internal-id matches and sets the
unsatisfiable flag, yet the request does not yield the empty paged
envelope without failure: the source role of the same account step
still validates its address afterwards and raises a validation failure
on the source field (the search index is still never invoked). -/
theorem c2_counterexample :
    sampleEnv.resolveAccounts "public" ["A"] = [] ∧
    accountRole sampleEnv "public" "account" "accounts" (.arr ["A"]) {} =
      .ok { isUnfeasible := true } ∧
    toArray sampleEnv
      { sampleQuery with params := { account := .arr ["A"], source := .arr ["B"] } } =
      (.error (.validation "source"), false) := by
  refine ⟨rfl, rfl, rfl⟩

/-- C2 amended: whenever the filter pipeline short-circuits with the
unsatisfiable flag set (as it does when an account, asset, pool or memo
resolution yields zero matches) without a step raising a validation
failure first, the query yields the standard empty paged envelope, the
search index is never invoked, and no failure reaches the caller. -/
theorem c2_unfeasible_skips_search (env : Env) (q : TxQuery)
    (h : runPipeline env q = .ok none) :
    toArray env q = (.ok (emptyResponse q), false) := by
  unfold toArray fetchData
  rw [h]
  rfl

/-- Witness for C2 amended: the concrete query whose account filter
resolves to zero matches short-circuits the pipeline and yields the
empty envelope with the search index not invoked. -/
theorem c2_witness :
    runPipeline sampleEnv { sampleQuery with params := { account := .arr ["A"] } } =
      .ok none ∧
    toArray sampleEnv { sampleQuery with params := { account := .arr ["A"] } } =
      (.ok (emptyResponse { sampleQuery with params := { account := .arr ["A"] } }), false) :=
  ⟨rfl,
   c2_unfeasible_skips_search sampleEnv
     { sampleQuery with params := { account := .arr ["A"] } } rfl⟩

/-- C1: for every transaction present in the archive store, the single
record lookup does not return the claimed Response Entry at all: the
source destructures the result of the asynchronous ledger store call
without awaiting it, so the lookup raises a TypeError instead of
fetching the ledger metadata record and merging its timestamp. -/
theorem c1_fetchTx_typeError (env : Env) (network idOrHash : String) (tx : Tx)
    (hlen : idOrHash.length ≤ 64) (hnet : env.knownNetwork network = true)
    (htx : env.fetchSingleTx network idOrHash = some tx) :
    fetchTx env network idOrHash = .error .typeError := by
  unfold fetchTx
  rw [if_neg (by omega), hnet]
  simp only [Bool.not_true, Bool.false_eq_true, if_false]
  rw [htx]
  rfl

/-- Witness for C1: the concrete archive holds the transaction with hash
ff, and its single record lookup evaluates to the TypeError. -/
theorem c1_witness :
    (sampleEnv.fetchSingleTx "public" "ff").isSome = true ∧
    fetchTx sampleEnv "public" "ff" = .error .typeError :=
  ⟨by decide,
   c1_fetchTx_typeError sampleEnv "public" "ff"
     ⟨330712481792, 330712481792, "ab", "b", "m", "r"⟩
     (by decide) (by decide) (by decide)⟩

/-- Witness for C7: the cursor abc raises a validation failure on the
cursor field, and the cursor -5 is ignored without error. -/
theorem c7_witness :
    addCursorFilter { sampleQuery with cursor := some "abc" } {} =
      .error (.validation "cursor") ∧
    addCursorFilter { sampleQuery with cursor := some "-5" } {} = .ok {} := by
  constructor
  · exact (c7_cursor_error_iff { sampleQuery with cursor := some "abc" } {} "abc"
      rfl (by decide)).1.mpr (by decide)
  · exact (c7_cursor_error_iff { sampleQuery with cursor := some "-5" } {} "-5"
      rfl (by decide)).2 (-5) (by decide) (by decide)

end TxQ
